import Mathlib

/-!
Verification of the reflective-CRUD microserver (python-microserver).

The embedding follows src/python-microserver: main.py is the request
dispatcher, models.py the dynamic model resolver, schemas.py the response
envelope. Pure Python functions become Lean functions; the database and
the web framework are external collaborators, so their fallible calls
(schema inspection, query execution, transaction commit) appear as
explicit oracle parameters of type Option String: none means the call
succeeds, some msg means it raises an exception whose text is msg.
-/

namespace Microserver

/-- A Python runtime value as it occurs in a database row: None, bool,
int, str, or a bytes / bytearray payload (a list of byte values). -/
inductive Value where
  | vNull : Value
  | vBool : Bool → Value
  | vInt : Int → Value
  | vStr : String → Value
  | vBytes : List Nat → Value
deriving DecidableEq, Repr

/-- A database row as the ORM instance exposes it: an association list
from column-attribute name to value.  Every mapped column attribute of
the instance is a key of this list. -/
abbrev Row := List (String × Value)

/-- Python getattr with a None default: getattr(row, col, None). -/
def getattrD (row : Row) (col : String) : Value :=
  match row.lookup col with
  | some v => v
  | none => Value.vNull

/-- Python hasattr(item, key) on an ORM instance: the key is one of the
mapped column attributes, i.e. a key of the row. -/
def hasattr (row : Row) (key : String) : Bool :=
  (row.lookup key).isSome

/-- Python setattr(item, key, value) on an ORM instance: replace the
value stored under an existing key (used only under a hasattr guard). -/
def setattrRow (row : Row) (key : String) (value : Value) : Row :=
  row.map (fun kv => (kv.1, if kv.1 = key then value else kv.2))

/-! ### UTF-8 decoding with errors ignored

Python bytes.decode with errors set to ignore drops each maximal invalid
subpart and keeps going (it never raises).  The decoder below follows
the standard UTF-8 acceptance ranges: two-byte leads C2..DF, three-byte
leads E0..EF with the surrogate and overlong exclusions on the first
continuation byte, four-byte leads F0..F4 with the corresponding
exclusions; every byte that cannot extend a valid sequence is skipped. -/

/-- Is b a UTF-8 continuation byte (80..BF)? -/
def isCont (b : Nat) : Bool := 0x80 ≤ b && b ≤ 0xBF

/-- Valid range of the first continuation byte after a three-byte lead. -/
def cont3lo (lead : Nat) : Nat := if lead = 0xE0 then 0xA0 else 0x80
def cont3hi (lead : Nat) : Nat := if lead = 0xED then 0x9F else 0xBF

/-- Valid range of the first continuation byte after a four-byte lead. -/
def cont4lo (lead : Nat) : Nat := if lead = 0xF0 then 0x90 else 0x80
def cont4hi (lead : Nat) : Nat := if lead = 0xF4 then 0x8F else 0xBF

/-- One UTF-8 decoding step at lead byte b followed by rest: returns the
decoded code point (or none if the subpart at b is invalid or truncated)
together with how many continuation bytes were consumed (the maximal
valid subpart, per the standard decoder Python wraps). -/
def utf8step (b : Nat) (rest : List Nat) : Option Nat × Nat :=
  if b < 0x80 then
    (some b, 0)
  else if 0xC2 ≤ b && b ≤ 0xDF then
    match rest with
    | c1 :: _ =>
      if isCont c1 then (some ((b - 0xC0) * 0x40 + (c1 - 0x80)), 1)
      else (none, 0)
    | [] => (none, 0)
  else if 0xE0 ≤ b && b ≤ 0xEF then
    match rest with
    | c1 :: c2 :: _ =>
      if cont3lo b ≤ c1 && c1 ≤ cont3hi b then
        if isCont c2 then
          (some ((b - 0xE0) * 0x1000 + (c1 - 0x80) * 0x40 + (c2 - 0x80)), 2)
        else (none, 1)
      else (none, 0)
    | [c1] =>
      if cont3lo b ≤ c1 && c1 ≤ cont3hi b then (none, 1) else (none, 0)
    | [] => (none, 0)
  else if 0xF0 ≤ b && b ≤ 0xF4 then
    match rest with
    | c1 :: c2 :: c3 :: _ =>
      if cont4lo b ≤ c1 && c1 ≤ cont4hi b then
        if isCont c2 then
          if isCont c3 then
            (some ((b - 0xF0) * 0x40000 + (c1 - 0x80) * 0x1000 +
                (c2 - 0x80) * 0x40 + (c3 - 0x80)), 3)
          else (none, 2)
        else (none, 1)
      else (none, 0)
    | [c1, c2] =>
      if cont4lo b ≤ c1 && c1 ≤ cont4hi b then
        if isCont c2 then (none, 2) else (none, 1)
      else (none, 0)
    | [c1] =>
      if cont4lo b ≤ c1 && c1 ≤ cont4hi b then (none, 1) else (none, 0)
    | [] => (none, 0)
  else
    (none, 0)

/-- Decode a byte list as UTF-8 code points, skipping invalid subparts
instead of raising (Python decode with errors ignored). -/
def decodeUtf8IgnoreAux : List Nat → List Nat
  | [] => []
  | b :: rest =>
    let s := utf8step b rest
    let out := decodeUtf8IgnoreAux (rest.drop s.2)
    match s.1 with
    | some cp => cp :: out
    | none => out
termination_by l => l.length
decreasing_by
  simp_wf
  omega

/-- Python value.decode(utf-8, errors ignored): a total function from a
byte list to text (here, the list of decoded code points rendered as a
string of characters). -/
def decodeUtf8Ignore (bs : List Nat) : String :=
  String.mk ((decodeUtf8IgnoreAux bs).map Char.ofNat)

/-- The per-value branch of serialize_row (main.py lines 37-43): a None
value stays null, a bytes or bytearray value is decoded as UTF-8 with
invalid subparts ignored, every other value passes through unchanged. -/
def serializeValue : Value → Value
  | Value.vNull => Value.vNull
  | Value.vBytes bs => Value.vStr (decodeUtf8Ignore bs)
  | v => v

/-- serialize_row from main.py: convert an ORM row to a dictionary,
reading each requested column with getattr(row, col, None). -/
def serialize_row (row : Row) (columns : List String) : Row :=
  columns.map (fun col => (col, serializeValue (getattrD row col)))

/-! ### Schema metadata and application state

The database is the external collaborator: its reflected shape is a list
of named tables, each with column names, primary-key column names (in
declaration order), foreign keys (abstracted to their textual
description; per-column type and nullability metadata is likewise
abstracted to the column names, which is all the dispatcher reads), and
the current rows. -/

structure TableSchema where
  columns : List String
  primary_keys : List String
  foreign_keys : List String
deriving DecidableEq, Repr

structure TableData where
  schema : TableSchema
  rows : List Row
deriving DecidableEq, Repr

structure DB where
  tables : List (String × TableData)
deriving DecidableEq, Repr

/-- Process state: the AVAILABLE_TABLES global captured at startup plus
the live database (main.py line 30). -/
structure AppState where
  availableTables : List String
  db : DB
deriving DecidableEq, Repr

/-- config.py API_VERSION. -/
def API_VERSION : String := "1.0.0"

/-- models.py get_all_tables: inspector.get_table_names() on the live
database. -/
def get_all_tables (db : DB) : List String :=
  db.tables.map Prod.fst

/-- models.py get_model_class: resolve a table name to a queryable
handle by re-reflecting the live schema with SQLAlchemy automap.
Automap maps a class only for tables that have a primary key, so the
resolution yields none both for a name absent from the live schema and
for a table without a primary-key constraint. -/
def get_model_class (db : DB) (table_name : String) : Option TableData :=
  match db.tables.lookup table_name with
  | some td => if td.schema.primary_keys.isEmpty then none else some td
  | none => none

/-- main.py get_table_columns: column names for a table from the live
inspector. -/
def get_table_columns (db : DB) (table_name : String) : List String :=
  match db.tables.lookup table_name with
  | some td => td.schema.columns
  | none => []

/-- main.py get_primary_keys: the constrained_columns of the primary-key
constraint, in declaration order. -/
def get_primary_keys (db : DB) (table_name : String) : List String :=
  match db.tables.lookup table_name with
  | some td => td.schema.primary_keys
  | none => []

/-- main.py startup_event: AVAILABLE_TABLES starts empty (line 30) and
is assigned from get_all_tables inside a try; on any exception the
handler only logs, so the process keeps running with the empty list. -/
def startup_event (reflected : Except String (List String)) : List String :=
  match reflected with
  | Except.ok ts => ts
  | Except.error _ => []

/-! ### Responses -/

/-- A JSON value, the shape of every HTTP response body. -/
inductive Jval where
  | jNull : Jval
  | jBool : Bool → Jval
  | jInt : Int → Jval
  | jStr : String → Jval
  | jArr : List Jval → Jval
  | jObj : List (String × Jval) → Jval

/-- JSON rendering of a row value.  Handlers only ever render rows that
came out of serialize_row, which has already replaced every bytes value
by its decoded text; the vBytes case mirrors that decoding. -/
def jOfValue : Value → Jval
  | Value.vNull => Jval.jNull
  | Value.vBool b => Jval.jBool b
  | Value.vInt n => Jval.jInt n
  | Value.vStr s => Jval.jStr s
  | Value.vBytes bs => Jval.jStr (decodeUtf8Ignore bs)

def jOfRow (r : Row) : Jval :=
  Jval.jObj (r.map (fun kv => (kv.1, jOfValue kv.2)))

/-- Python str() of a value, for interpolated detail messages. -/
def valueText : Value → String
  | Value.vNull => "None"
  | Value.vBool b => if b then "True" else "False"
  | Value.vInt n => toString n
  | Value.vStr s => s
  | Value.vBytes _ => "bytes"

/-- schemas.py GenericResponse: the response envelope, with data and
error defaulting to None. -/
structure GenericResponse where
  success : Bool
  message : String
  data : Option Jval
  error : Option String

/-- What a handler produces: a GenericResponse returned normally, or an
HTTPException raised with a status code and detail text. -/
inductive HandlerResult where
  | ok : GenericResponse → HandlerResult
  | err : (status : Nat) → (detail : String) → HandlerResult

/-- The wire form of a handler outcome, as the framework sends it: a
returned GenericResponse is serialized field by field; a raised
HTTPException becomes status plus the default detail-object body. -/
def renderResult : HandlerResult → Nat × Jval
  | HandlerResult.ok r =>
    (200, Jval.jObj [("success", Jval.jBool r.success),
                     ("message", Jval.jStr r.message),
                     ("data", r.data.getD Jval.jNull),
                     ("error", match r.error with
                               | some e => Jval.jStr e
                               | none => Jval.jNull)])
  | HandlerResult.err status detail =>
    (status, Jval.jObj [("detail", Jval.jStr detail)])

/-- Does a JSON body have the fixed Envelope shape
with exactly the keys success, message, data, error? -/
def isEnvelopeShape (j : Jval) : Bool :=
  match j with
  | Jval.jObj fs => fs.map Prod.fst == ["success", "message", "data", "error"]
  | _ => false

/-! ### Endpoint handlers (main.py) -/

/-- GET / (main.py root). -/
def root (st : AppState) : HandlerResult :=
  HandlerResult.ok ⟨true, "Northwind Microserver API is running",
    some (Jval.jObj [("version", Jval.jStr API_VERSION),
                     ("tables", Jval.jArr (st.availableTables.map Jval.jStr))]),
    none⟩

/-- GET /api/tables (main.py list_tables). -/
def list_tables (st : AppState) : HandlerResult :=
  HandlerResult.ok ⟨true,
    "Found " ++ toString st.availableTables.length ++ " tables",
    some (Jval.jObj [("tables", Jval.jArr (st.availableTables.map Jval.jStr))]),
    none⟩

/-- GET /api/tables/{table_name}/schema (main.py get_table_schema).
inspectFail is the oracle for the inspector calls inside the try block
raising; such an exception becomes a 500. -/
def get_table_schema (st : AppState) (table_name : String)
    (inspectFail : Option String) : HandlerResult :=
  if !(st.availableTables.contains table_name) then
    HandlerResult.err 404 ("Table " ++ table_name ++ " not found")
  else
    match inspectFail with
    | some m => HandlerResult.err 500 m
    | none =>
      HandlerResult.ok ⟨true, "Schema for table " ++ table_name,
        some (Jval.jObj
          [("table_name", Jval.jStr table_name),
           ("columns", Jval.jArr ((get_table_columns st.db table_name).map Jval.jStr)),
           ("primary_keys", Jval.jArr ((get_primary_keys st.db table_name).map Jval.jStr)),
           ("foreign_keys", Jval.jArr
             (match st.db.tables.lookup table_name with
              | some td => td.schema.foreign_keys.map Jval.jStr
              | none => []))]),
        none⟩

/-- GET /api/{table_name} handler body (main.py read_items), after the
framework has validated and defaulted skip and limit.  queryFail is the
oracle for the query raising; such an exception becomes a 500. -/
def read_items (st : AppState) (table_name : String) (skip limit : Int)
    (queryFail : Option String) : HandlerResult :=
  if !(st.availableTables.contains table_name) then
    HandlerResult.err 404 ("Table " ++ table_name ++ " not found")
  else
    match get_model_class st.db table_name with
    | none =>
      HandlerResult.err 404 ("Could not load model for table " ++ table_name)
    | some td =>
      match queryFail with
      | some m => HandlerResult.err 500 m
      | none =>
        let items := (td.rows.drop skip.toNat).take limit.toNat
        let columns := get_table_columns st.db table_name
        let serialized := items.map (fun r => serialize_row r columns)
        HandlerResult.ok ⟨true,
          "Retrieved " ++ toString items.length ++ " records from " ++ table_name,
          some (Jval.jObj [("table", Jval.jStr table_name),
                           ("items", Jval.jArr (serialized.map jOfRow)),
                           ("skip", Jval.jInt skip),
                           ("limit", Jval.jInt limit)]),
          none⟩

/-- The FastAPI Query contract declared on read_items (line 124-125):
skip defaults to 0 with ge=0, limit defaults to 10 with ge=1 and le=100;
a supplied value outside its range is rejected with a 422 validation
error before the handler body runs (values are not clamped). -/
def read_items_endpoint (st : AppState) (table_name : String)
    (skipParam limitParam : Option Int) (queryFail : Option String) :
    HandlerResult :=
  let skip := skipParam.getD 0
  let limit := limitParam.getD 10
  if skip < 0 then
    HandlerResult.err 422 ("skip: input should be greater than or equal to 0")
  else if limit < 1 then
    HandlerResult.err 422 ("limit: input should be greater than or equal to 1")
  else if 100 < limit then
    HandlerResult.err 422 ("limit: input should be less than or equal to 100")
  else
    read_items st table_name skip limit queryFail

/-- GET /api/{table_name}/{record_id} (main.py read_item). -/
def read_item (st : AppState) (table_name : String) (record_id : Value)
    (queryFail : Option String) : HandlerResult :=
  if !(st.availableTables.contains table_name) then
    HandlerResult.err 404 ("Table " ++ table_name ++ " not found")
  else
    match get_model_class st.db table_name with
    | none =>
      HandlerResult.err 404 ("Could not load model for table " ++ table_name)
    | some td =>
      match get_primary_keys st.db table_name with
      | [] =>
        HandlerResult.err 400 ("Table " ++ table_name ++ " has no primary key")
      | pk0 :: _ =>
        match queryFail with
        | some m => HandlerResult.err 500 m
        | none =>
          match td.rows.find? (fun r => r.lookup pk0 == some record_id) with
          | none =>
            HandlerResult.err 404 ("Record not found in " ++ table_name ++
              " with " ++ pk0 ++ "=" ++ valueText record_id)
          | some item =>
            HandlerResult.ok ⟨true, "Retrieved record from " ++ table_name,
              some (jOfRow (serialize_row item (get_table_columns st.db table_name))),
              none⟩

/-- Replace the stored rows of one table. -/
def dbUpdateRows (db : DB) (table_name : String) (f : List Row → List Row) : DB :=
  DB.mk (db.tables.map (fun kv =>
    (kv.1, if kv.1 = table_name then TableData.mk kv.2.schema (f kv.2.rows) else kv.2)))

/-- POST /api/{table_name} (main.py create_item).  Two oracles cover
the unclassified exceptions of the try block: writeFail is an exception
at or before db.commit() (instance construction, add, the commit
itself) — db.rollback() undoes the pending insert and a 400 carries the
exception text with the database unchanged; postFail is an exception
after a successful commit (db.refresh on line 226 or get_table_columns
on line 229 run inside the same try) — the same catch-all returns 400,
but the rollback is a no-op on a committed transaction, so the inserted
row persists. -/
def create_item (st : AppState) (table_name : String) (item_data : Row)
    (writeFail postFail : Option String) : HandlerResult × DB :=
  if !(st.availableTables.contains table_name) then
    (HandlerResult.err 404 ("Table " ++ table_name ++ " not found"), st.db)
  else
    match get_model_class st.db table_name with
    | none =>
      (HandlerResult.err 404 ("Could not load model for table " ++ table_name), st.db)
    | some _td =>
      match writeFail with
      | some m => (HandlerResult.err 400 m, st.db)
      | none =>
        let newDb := dbUpdateRows st.db table_name (fun rows => rows ++ [item_data])
        match postFail with
        | some m => (HandlerResult.err 400 m, newDb)
        | none =>
          let columns := get_table_columns st.db table_name
          (HandlerResult.ok ⟨true, "Record created in " ++ table_name,
            some (jOfRow (serialize_row item_data columns)), none⟩, newDb)

/-- The update loop of main.py update_item (lines 274-276): for each
key-value pair of the body, in order, set the attribute only when the
record has it. -/
def apply_updates (row : Row) : List (String × Value) → Row
  | [] => row
  | kv :: rest =>
    apply_updates (if hasattr row kv.1 then setattrRow row kv.1 kv.2 else row) rest

/-- Replace the first row matching p (the row the ORM instance from
query(...).first() identifies). -/
def replaceFirst (p : Row → Bool) (newRow : Row) : List Row → List Row
  | [] => []
  | r :: rs => if p r then newRow :: rs else r :: replaceFirst p newRow rs

/-- Remove the first row matching p. -/
def removeFirst (p : Row → Bool) : List Row → List Row
  | [] => []
  | r :: rs => if p r then rs else r :: removeFirst p rs

/-- PUT /api/{table_name}/{record_id} (main.py update_item).  The
no-primary-key 400 branch of lines 264-265 is kept even though automap
makes it unreachable (a resolved model implies a primary key).  As in
create_item, writeFail is an exception at or before db.commit() (the
database is rolled back unchanged), while postFail is an exception
after a successful commit (db.refresh on line 279 or get_table_columns
on line 281, still inside the try): it also yields a 400, but the
committed update persists. -/
def update_item (st : AppState) (table_name : String) (record_id : Value)
    (item_data : List (String × Value)) (writeFail postFail : Option String) :
    HandlerResult × DB :=
  if !(st.availableTables.contains table_name) then
    (HandlerResult.err 404 ("Table " ++ table_name ++ " not found"), st.db)
  else
    match get_model_class st.db table_name with
    | none =>
      (HandlerResult.err 404 ("Could not load model for table " ++ table_name), st.db)
    | some td =>
      match get_primary_keys st.db table_name with
      | [] =>
        (HandlerResult.err 400 ("Table " ++ table_name ++ " has no primary key"), st.db)
      | pk0 :: _ =>
        match td.rows.find? (fun r => r.lookup pk0 == some record_id) with
        | none =>
          (HandlerResult.err 404 ("Record not found in " ++ table_name), st.db)
        | some item =>
          let updated := apply_updates item item_data
          match writeFail with
          | some m => (HandlerResult.err 400 m, st.db)
          | none =>
            let newDb := dbUpdateRows st.db table_name
              (replaceFirst (fun r => r.lookup pk0 == some record_id) updated)
            match postFail with
            | some m => (HandlerResult.err 400 m, newDb)
            | none =>
              (HandlerResult.ok ⟨true, "Record updated in " ++ table_name,
                some (jOfRow (serialize_row updated (get_table_columns st.db table_name))),
                none⟩, newDb)

/-- DELETE /api/{table_name}/{record_id} (main.py delete_item).  After
db.commit() the handler only builds the response object from record_id
(lines 327-331), with no further database call, so a single writeFail
oracle at or before the commit suffices: on such an exception the
rollback leaves the database unchanged. -/
def delete_item (st : AppState) (table_name : String) (record_id : Value)
    (writeFail : Option String) : HandlerResult × DB :=
  if !(st.availableTables.contains table_name) then
    (HandlerResult.err 404 ("Table " ++ table_name ++ " not found"), st.db)
  else
    match get_model_class st.db table_name with
    | none =>
      (HandlerResult.err 404 ("Could not load model for table " ++ table_name), st.db)
    | some td =>
      match get_primary_keys st.db table_name with
      | [] =>
        (HandlerResult.err 400 ("Table " ++ table_name ++ " has no primary key"), st.db)
      | pk0 :: _ =>
        match td.rows.find? (fun r => r.lookup pk0 == some record_id) with
        | none =>
          (HandlerResult.err 404 ("Record not found in " ++ table_name), st.db)
        | some _item =>
          match writeFail with
          | some m => (HandlerResult.err 400 m, st.db)
          | none =>
            (HandlerResult.ok ⟨true, "Record deleted from " ++ table_name,
              some (Jval.jObj [("deleted_id", jOfValue record_id)]), none⟩,
             dbUpdateRows st.db table_name
               (removeFirst (fun r => r.lookup pk0 == some record_id)))

/-! ### General lemmas -/

theorem contains_eq_false_of_not_mem {l : List String} {t : String} (h : t ∉ l) :
    l.contains t = false := by
  rw [List.contains_eq_any_beq]
  simp only [List.any_eq_false]
  intro x hx
  simp only [beq_iff_eq]
  intro he
  exact h (he ▸ hx)

/-- A resolved model pins down the reflected table and certifies a
primary key (automap maps no class without one). -/
theorem get_model_class_eq_some {db : DB} {t : String} {td : TableData}
    (h : get_model_class db t = some td) :
    db.tables.lookup t = some td ∧ td.schema.primary_keys ≠ [] := by
  unfold get_model_class at h
  cases hlk : db.tables.lookup t with
  | none =>
    rw [hlk] at h
    simp at h
  | some td2 =>
    rw [hlk] at h
    by_cases he : td2.schema.primary_keys.isEmpty
    · simp [he] at h
    · simp [he] at h
      subst h
      exact ⟨rfl, by simpa using he⟩

/-- A table whose reflected primary-key list is empty (in particular a
name absent from the live schema) resolves to no automapped class. -/
theorem get_model_class_eq_none_of_no_pk {db : DB} {t : String}
    (h : get_primary_keys db t = []) : get_model_class db t = none := by
  unfold get_primary_keys at h
  unfold get_model_class
  cases hlk : db.tables.lookup t with
  | none => rfl
  | some td =>
    rw [hlk] at h
    simp at h
    simp [h]

theorem lookup_map_fun {β : Type} (g : String → β) (cols : List String) (col : String) :
    (cols.map (fun c => (c, g c))).lookup col =
      if col ∈ cols then some (g col) else none := by
  induction cols with
  | nil => simp
  | cons c cs ih =>
    by_cases hc : col = c
    · subst hc
      simp [List.lookup]
    · have hbeq : (col == c) = false := by simp [hc]
      simp [List.lookup, hbeq, ih, List.mem_cons, hc]

/-! ### Claim theorems -/

/-- All six table-referencing endpoints return the table-not-found 404,
independently of the database contents and of every oracle, whenever the
requested name is outside the startup table list. -/
theorem handlers_404_of_unknown_table (st : AppState) (t : String) (rid : Value)
    (body : Row) (skip limit : Int) (o1 o2 o3 o4 o5 o6 o7 o8 : Option String)
    (h : t ∉ st.availableTables) :
    get_table_schema st t o1 = HandlerResult.err 404 ("Table " ++ t ++ " not found") ∧
    read_items st t skip limit o2 = HandlerResult.err 404 ("Table " ++ t ++ " not found") ∧
    read_item st t rid o3 = HandlerResult.err 404 ("Table " ++ t ++ " not found") ∧
    create_item st t body o4 o7 = (HandlerResult.err 404 ("Table " ++ t ++ " not found"), st.db) ∧
    update_item st t rid body o5 o8 = (HandlerResult.err 404 ("Table " ++ t ++ " not found"), st.db) ∧
    delete_item st t rid o6 = (HandlerResult.err 404 ("Table " ++ t ++ " not found"), st.db) := by
  refine ⟨?_, ?_, ?_, ?_, ?_, ?_⟩ <;>
    simp [get_table_schema, read_items, read_item, create_item, update_item,
      delete_item, h]

/-- C1: for every table name not in the discovered table list, each of
the six table-referencing endpoints (get schema, list records, get
record, create, update, delete) returns HTTP 404, whatever the live
database holds and whatever the later-stage oracles would do (so the
404 is decided before any model resolution or query), and the write
endpoints leave the database unchanged. -/
theorem C1_unknown_table_404 (st : AppState) (t : String) (rid : Value)
    (body : Row) (skip limit : Int) (o1 o2 o3 o4 o5 o6 o7 o8 : Option String)
    (h : t ∉ st.availableTables) :
    get_table_schema st t o1 = HandlerResult.err 404 ("Table " ++ t ++ " not found") ∧
    read_items st t skip limit o2 = HandlerResult.err 404 ("Table " ++ t ++ " not found") ∧
    read_item st t rid o3 = HandlerResult.err 404 ("Table " ++ t ++ " not found") ∧
    create_item st t body o4 o7 = (HandlerResult.err 404 ("Table " ++ t ++ " not found"), st.db) ∧
    update_item st t rid body o5 o8 = (HandlerResult.err 404 ("Table " ++ t ++ " not found"), st.db) ∧
    delete_item st t rid o6 = (HandlerResult.err 404 ("Table " ++ t ++ " not found"), st.db) :=
  handlers_404_of_unknown_table st t rid body skip limit o1 o2 o3 o4 o5 o6 o7 o8 h

theorem C1_unknown_table_404_witness :
    ("users" ∉ (AppState.mk ["customers"] (DB.mk [])).availableTables) ∧
    (get_table_schema (AppState.mk ["customers"] (DB.mk [])) "users" none =
        HandlerResult.err 404 ("Table " ++ "users" ++ " not found") ∧
      read_items (AppState.mk ["customers"] (DB.mk [])) "users" 0 10 none =
        HandlerResult.err 404 ("Table " ++ "users" ++ " not found") ∧
      read_item (AppState.mk ["customers"] (DB.mk [])) "users" (Value.vInt 1) none =
        HandlerResult.err 404 ("Table " ++ "users" ++ " not found") ∧
      create_item (AppState.mk ["customers"] (DB.mk [])) "users" [] none none =
        (HandlerResult.err 404 ("Table " ++ "users" ++ " not found"), DB.mk []) ∧
      update_item (AppState.mk ["customers"] (DB.mk [])) "users" (Value.vInt 1) [] none none =
        (HandlerResult.err 404 ("Table " ++ "users" ++ " not found"), DB.mk []) ∧
      delete_item (AppState.mk ["customers"] (DB.mk [])) "users" (Value.vInt 1) none =
        (HandlerResult.err 404 ("Table " ++ "users" ++ " not found"), DB.mk [])) :=
  ⟨by decide,
   C1_unknown_table_404 (AppState.mk ["customers"] (DB.mk [])) "users"
     (Value.vInt 1) [] 0 10 none none none none none none none none (by decide)⟩

/-- C3: for every row and every requested column, the row serializer
maps a missing attribute or a stored null to null, decodes every bytes
or bytearray value as UTF-8 text with invalid subparts ignored (a total
decoding, so it cannot raise), and passes every other value through
unchanged. -/
theorem C3_serialize_row_rules (row : Row) (columns : List String) (col : String)
    (h : col ∈ columns) :
    (row.lookup col = none →
      (serialize_row row columns).lookup col = some Value.vNull) ∧
    (∀ bs, row.lookup col = some (Value.vBytes bs) →
      (serialize_row row columns).lookup col =
        some (Value.vStr (decodeUtf8Ignore bs))) ∧
    (∀ v, row.lookup col = some v → (∀ bs, v ≠ Value.vBytes bs) →
      (serialize_row row columns).lookup col = some v) := by
  have hl : (serialize_row row columns).lookup col
      = some (serializeValue (getattrD row col)) := by
    rw [serialize_row, lookup_map_fun]
    simp [h]
  refine ⟨?_, ?_, ?_⟩
  · intro hn
    rw [hl]
    simp [getattrD, hn, serializeValue]
  · intro bs hb
    rw [hl]
    simp [getattrD, hb, serializeValue]
  · intro v hv hnb
    rw [hl]
    simp only [getattrD, hv]
    cases v with
    | vNull => simp [serializeValue]
    | vBool b => simp [serializeValue]
    | vInt n => simp [serializeValue]
    | vStr s => simp [serializeValue]
    | vBytes bs => exact absurd rfl (hnb bs)

theorem C3_serialize_row_rules_witness :
    (("b" : String) ∈ ["a", "b", "c"]) ∧
    (([("a", Value.vInt 1), ("b", Value.vBytes [0x41, 0xFF, 0x42])] : Row).lookup "b" = none →
      (serialize_row [("a", Value.vInt 1), ("b", Value.vBytes [0x41, 0xFF, 0x42])]
        ["a", "b", "c"]).lookup "b" = some Value.vNull) ∧
    (∀ bs, ([("a", Value.vInt 1), ("b", Value.vBytes [0x41, 0xFF, 0x42])] : Row).lookup "b" =
        some (Value.vBytes bs) →
      (serialize_row [("a", Value.vInt 1), ("b", Value.vBytes [0x41, 0xFF, 0x42])]
        ["a", "b", "c"]).lookup "b" = some (Value.vStr (decodeUtf8Ignore bs))) ∧
    (∀ v, ([("a", Value.vInt 1), ("b", Value.vBytes [0x41, 0xFF, 0x42])] : Row).lookup "b" =
        some v → (∀ bs, v ≠ Value.vBytes bs) →
      (serialize_row [("a", Value.vInt 1), ("b", Value.vBytes [0x41, 0xFF, 0x42])]
        ["a", "b", "c"]).lookup "b" = some v) :=
  ⟨by decide,
   C3_serialize_row_rules [("a", Value.vInt 1), ("b", Value.vBytes [0x41, 0xFF, 0x42])]
     ["a", "b", "c"] "b" (by decide)⟩

/-! ### Sample data for concrete witnesses -/

def sampleTD : TableData :=
  TableData.mk (TableSchema.mk ["product_id", "product_name", "price"] ["product_id"] [])
    [[("product_id", Value.vInt 1), ("product_name", Value.vStr ("Widget")), ("price", Value.vInt 10)],
     [("product_id", Value.vInt 2), ("product_name", Value.vStr ("Gadget")), ("price", Value.vInt 20)],
     [("product_id", Value.vInt 3), ("product_name", Value.vStr ("Gizmo")), ("price", Value.vInt 30)]]

def sampleDB : DB := DB.mk [("products", sampleTD)]

def sampleState : AppState := AppState.mk ["products"] sampleDB

/-- C5: out-of-range pagination is rejected with a 422 validation error
whose text does not depend on the application state or the query oracle
(so no query runs and nothing is clamped); omitted parameters default to
skip=0 and limit=10; and an in-range request on a known table returns
exactly the rows offset by skip and capped at limit, hence at most limit
records. -/
theorem C5_pagination_bounds (st : AppState) (t : String)
    (skipParam limitParam : Option Int) :
    (skipParam.getD 0 < 0 ∨ limitParam.getD 10 < 1 ∨ 100 < limitParam.getD 10 →
      ∃ m, ∀ st2 qf, read_items_endpoint st2 t skipParam limitParam qf =
        HandlerResult.err 422 m) ∧
    (∀ qf, read_items_endpoint st t none none qf = read_items st t 0 10 qf) ∧
    (∀ td, 0 ≤ skipParam.getD 0 → 1 ≤ limitParam.getD 10 →
      limitParam.getD 10 ≤ 100 → t ∈ st.availableTables →
      get_model_class st.db t = some td →
      read_items_endpoint st t skipParam limitParam none =
        HandlerResult.ok ⟨true,
          "Retrieved " ++
            toString ((td.rows.drop (skipParam.getD 0).toNat).take
              (limitParam.getD 10).toNat).length ++ " records from " ++ t,
          some (Jval.jObj [("table", Jval.jStr t),
            ("items", Jval.jArr
              (((td.rows.drop (skipParam.getD 0).toNat).take
                  (limitParam.getD 10).toNat).map
                (fun r => jOfRow (serialize_row r (get_table_columns st.db t))))),
            ("skip", Jval.jInt (skipParam.getD 0)),
            ("limit", Jval.jInt (limitParam.getD 10))]),
          none⟩ ∧
      ((td.rows.drop (skipParam.getD 0).toNat).take
        (limitParam.getD 10).toNat).length ≤ (limitParam.getD 10).toNat) := by
  refine ⟨?_, ?_, ?_⟩
  · intro h
    by_cases hs : skipParam.getD 0 < 0
    · exact ⟨"skip: input should be greater than or equal to 0",
        fun st2 qf => by simp [read_items_endpoint, hs]⟩
    · by_cases h1 : limitParam.getD 10 < 1
      · exact ⟨"limit: input should be greater than or equal to 1",
          fun st2 qf => by simp [read_items_endpoint, hs, h1]⟩
      · have h2 : 100 < limitParam.getD 10 := by
          rcases h with h | h | h
          · exact absurd h hs
          · exact absurd h h1
          · exact h
        exact ⟨"limit: input should be less than or equal to 100",
          fun st2 qf => by simp [read_items_endpoint, hs, h1, h2]⟩
  · intro qf
    simp [read_items_endpoint]
  · intro td h0 h1 h2 hmem hmc
    have hs : ¬ skipParam.getD 0 < 0 := by omega
    have hl1 : ¬ limitParam.getD 10 < 1 := by omega
    have hl2 : ¬ 100 < limitParam.getD 10 := by omega
    have hcont : st.availableTables.contains t = true :=
      List.elem_eq_true_of_mem hmem
    constructor
    · simp [read_items_endpoint, hs, hl1, hl2, read_items, hcont, hmc, hmem,
        Function.comp_def]
    · simp [List.length_take]

theorem C5_pagination_bounds_witness :
    (∃ m, ∀ st2 qf, read_items_endpoint st2 "products" (some (-1)) none qf =
      HandlerResult.err 422 m) ∧
    (read_items_endpoint sampleState "products" none none none =
      read_items sampleState "products" 0 10 none) ∧
    (read_items_endpoint sampleState "products" none (some 2) none =
        HandlerResult.ok ⟨true,
          "Retrieved " ++
            toString ((sampleTD.rows.drop (0 : Int).toNat).take
              (2 : Int).toNat).length ++ " records from " ++ "products",
          some (Jval.jObj [("table", Jval.jStr ("products")),
            ("items", Jval.jArr
              (((sampleTD.rows.drop (0 : Int).toNat).take (2 : Int).toNat).map
                (fun r => jOfRow (serialize_row r
                  (get_table_columns sampleState.db ("products")))))),
            ("skip", Jval.jInt 0),
            ("limit", Jval.jInt 2)]),
          none⟩ ∧
      ((sampleTD.rows.drop (0 : Int).toNat).take (2 : Int).toNat).length ≤
        (2 : Int).toNat) :=
  ⟨(C5_pagination_bounds sampleState "products" (some (-1)) none).1
     (Or.inl (by decide)),
   (C5_pagination_bounds sampleState "products" none none).2.1 none,
   (C5_pagination_bounds sampleState "products" none (some 2)).2.2 sampleTD
     (by decide) (by decide) (by decide) (by decide) (by decide)⟩

theorem lookup_map_entry {β : Type} (f : String → β → β) (l : List (String × β)) (u : String) :
    (l.map (fun kv => (kv.1, f kv.1 kv.2))).lookup u = (l.lookup u).map (f u) := by
  induction l with
  | nil => simp
  | cons kv rest ih =>
    by_cases hu : u = kv.1
    · simp [List.lookup, hu]
    · have hbeq : (u == kv.1) = false := by simp [hu]
      simp [List.lookup, hbeq, ih]

/-- Truncate the declared primary-key tuple of one table to its first
column, leaving columns, foreign keys and rows untouched. -/
def truncTD (td : TableData) : TableData :=
  TableData.mk
    (TableSchema.mk td.schema.columns (td.schema.primary_keys.take 1)
      td.schema.foreign_keys)
    td.rows

def dbTruncatePK (db : DB) (t : String) : DB :=
  DB.mk (db.tables.map (fun kv => (kv.1, if kv.1 = t then truncTD kv.2 else kv.2)))

theorem dbTruncatePK_lookup (db : DB) (t u : String) :
    (dbTruncatePK db t).tables.lookup u =
      (db.tables.lookup u).map (fun td => if u = t then truncTD td else td) := by
  exact lookup_map_entry (fun k td => if k = t then truncTD td else td) db.tables u

/-- A sample state whose single table has no primary key. -/
def npTD : TableData :=
  TableData.mk (TableSchema.mk ["a"] [] []) [[("a", Value.vInt 1)]]

def npState : AppState := AppState.mk ["logs"] (DB.mk [("logs", npTD)])

/-- C4 counterexample: a table without a primary key is listed by
reflection (so it is in AVAILABLE_TABLES), but automap maps no class
for it, so get/update/delete answer 404 "Could not load model" — not
the HTTP 400 the claim states; the in-handler no-primary-key 400 branch
never runs. -/
theorem C4_counterexample_no_pk_gives_404 :
    get_primary_keys npState.db "logs" = [] ∧
    ("logs" ∈ npState.availableTables) ∧
    read_item npState "logs" (Value.vInt 1) none =
      HandlerResult.err 404 ("Could not load model for table " ++ "logs") ∧
    read_item npState "logs" (Value.vInt 1) none ≠
      HandlerResult.err 400 ("Table " ++ "logs" ++ " has no primary key") ∧
    update_item npState "logs" (Value.vInt 1) [] none none =
      (HandlerResult.err 404 ("Could not load model for table " ++ "logs"), npState.db) ∧
    delete_item npState "logs" (Value.vInt 1) none =
      (HandlerResult.err 404 ("Could not load model for table " ++ "logs"), npState.db) := by
  refine ⟨rfl, by decide, rfl, ?_, rfl, rfl⟩
  intro h
  rw [show read_item npState "logs" (Value.vInt 1) none =
    HandlerResult.err 404 ("Could not load model for table " ++ "logs") from rfl] at h
  simp at h

/-- C4 (amended): identity-based operations depend only on the first
column of the declared primary-key tuple: truncating the tuple to its
first column changes none of the get/update/delete responses.  When the
tuple is empty, automap resolves no model class, so the three
operations fail with HTTP 404 "Could not load model" for every value
of the query and write oracles (before any query runs), the write
operations leave the database unchanged, and the handlers' in-line
no-primary-key 400 branch is unreachable: every resolved model has a
nonempty primary-key tuple. -/
theorem C4_first_pk_column_only (st : AppState) (t : String) (rid : Value)
    (body : List (String × Value)) (qf wf1 pf1 wf2 : Option String) :
    (get_primary_keys st.db t = [] → t ∈ st.availableTables →
      read_item st t rid qf =
        HandlerResult.err 404 ("Could not load model for table " ++ t) ∧
      update_item st t rid body wf1 pf1 =
        (HandlerResult.err 404 ("Could not load model for table " ++ t), st.db) ∧
      delete_item st t rid wf2 =
        (HandlerResult.err 404 ("Could not load model for table " ++ t), st.db)) ∧
    (∀ td, get_model_class st.db t = some td → td.schema.primary_keys ≠ []) ∧
    (read_item (AppState.mk st.availableTables (dbTruncatePK st.db t)) t rid qf =
      read_item st t rid qf) ∧
    ((update_item (AppState.mk st.availableTables (dbTruncatePK st.db t)) t rid body wf1 pf1).1 =
      (update_item st t rid body wf1 pf1).1) ∧
    ((delete_item (AppState.mk st.availableTables (dbTruncatePK st.db t)) t rid wf2).1 =
      (delete_item st t rid wf2).1) := by
  have htr := dbTruncatePK_lookup st.db t t
  refine ⟨?_, ?_, ?_, ?_, ?_⟩
  · intro hpk hmem
    have hmc : get_model_class st.db t = none := get_model_class_eq_none_of_no_pk hpk
    refine ⟨?_, ?_, ?_⟩ <;>
      simp [read_item, update_item, delete_item, hmem, hmc]
  · exact fun td h => (get_model_class_eq_some h).2
  · by_cases hmem : t ∈ st.availableTables
    · cases hdb : st.db.tables.lookup t with
      | none => simp [read_item, hmem, get_model_class, htr, hdb]
      | some td =>
        cases hpk : td.schema.primary_keys with
        | nil =>
          simp [read_item, hmem, get_model_class, get_primary_keys,
            get_table_columns, htr, hdb, truncTD, hpk]
        | cons p0 rest =>
          simp [read_item, hmem, get_model_class, get_primary_keys,
            get_table_columns, htr, hdb, truncTD, hpk]
    · simp [read_item, hmem]
  · by_cases hmem : t ∈ st.availableTables
    · cases hdb : st.db.tables.lookup t with
      | none => simp [update_item, hmem, get_model_class, htr, hdb]
      | some td =>
        cases hpk : td.schema.primary_keys with
        | nil =>
          simp [update_item, hmem, get_model_class, get_primary_keys,
            get_table_columns, htr, hdb, truncTD, hpk]
        | cons p0 rest =>
          simp [update_item, hmem, get_model_class, get_primary_keys,
            get_table_columns, htr, hdb, truncTD, hpk]
          cases hf : List.find? (fun r => List.lookup p0 r == some rid) td.rows with
          | none => rfl
          | some item =>
            cases wf1 with
            | some m => rfl
            | none =>
              cases pf1 with
              | none => rfl
              | some m => rfl
    · simp [update_item, hmem]
  · by_cases hmem : t ∈ st.availableTables
    · cases hdb : st.db.tables.lookup t with
      | none => simp [delete_item, hmem, get_model_class, htr, hdb]
      | some td =>
        cases hpk : td.schema.primary_keys with
        | nil =>
          simp [delete_item, hmem, get_model_class, get_primary_keys,
            get_table_columns, htr, hdb, truncTD, hpk]
        | cons p0 rest =>
          simp [delete_item, hmem, get_model_class, get_primary_keys,
            get_table_columns, htr, hdb, truncTD, hpk]
          cases hf : List.find? (fun r => List.lookup p0 r == some rid) td.rows with
          | none => rfl
          | some item =>
            cases wf2 with
            | none => rfl
            | some m => rfl
    · simp [delete_item, hmem]

theorem C4_first_pk_column_only_witness :
    ((read_item npState "logs" (Value.vInt 1) none =
        HandlerResult.err 404 ("Could not load model for table " ++ "logs") ∧
      update_item npState "logs" (Value.vInt 1) [] none none =
        (HandlerResult.err 404 ("Could not load model for table " ++ "logs"), npState.db) ∧
      delete_item npState "logs" (Value.vInt 1) none =
        (HandlerResult.err 404 ("Could not load model for table " ++ "logs"), npState.db)) ∧
     (read_item
        (AppState.mk sampleState.availableTables (dbTruncatePK sampleState.db "products"))
        "products" (Value.vInt 1) none =
      read_item sampleState "products" (Value.vInt 1) none)) :=
  ⟨(C4_first_pk_column_only npState "logs" (Value.vInt 1) [] none none none none).1
     (by decide) (by decide),
   (C4_first_pk_column_only sampleState "products" (Value.vInt 1) [] none none
      none none).2.2.1⟩

/-! ### Lemmas about attribute updates -/

theorem lookup_eq_none_of_not_mem_keys {β : Type} {l : List (String × β)} {k : String}
    (h : k ∉ l.map Prod.fst) : l.lookup k = none := by
  induction l with
  | nil => simp
  | cons kv rest ih =>
    simp only [List.map_cons, List.mem_cons, not_or] at h
    have hbeq : (k == kv.1) = false := by simp [h.1]
    simp [List.lookup, hbeq, ih h.2]

theorem lookup_setattrRow (row : Row) (k col : String) (v : Value) :
    (setattrRow row k v).lookup col =
      (row.lookup col).map (fun b => if col = k then v else b) :=
  lookup_map_entry (fun key b => if key = k then v else b) row col

theorem hasattr_setattrRow (row : Row) (k key : String) (v : Value) :
    hasattr (setattrRow row k v) key = hasattr row key := by
  simp only [hasattr, lookup_setattrRow]
  cases row.lookup key <;> rfl

theorem lookup_setattrRow_self (row : Row) (k : String) (v : Value) :
    (setattrRow row k v).lookup k = (row.lookup k).map (fun _ => v) := by
  simp [lookup_setattrRow]

theorem lookup_setattrRow_ne (row : Row) (k col : String) (v : Value)
    (h : col ≠ k) : (setattrRow row k v).lookup col = row.lookup col := by
  simp only [lookup_setattrRow, if_neg h]
  cases row.lookup col <;> rfl

/-- The update loop touches exactly the keys that occur in the body and
exist as attributes; its effect on each column, for a body with
duplicate-free keys (a Python dict). -/
theorem apply_updates_lookup (item : Row) (body : List (String × Value))
    (hnd : (body.map Prod.fst).Nodup) (col : String) :
    (apply_updates item body).lookup col =
      if hasattr item col ∧ (body.lookup col).isSome then body.lookup col
      else item.lookup col := by
  induction body generalizing item with
  | nil => simp [apply_updates]
  | cons kv rest ih =>
    obtain ⟨k, v⟩ := kv
    simp only [List.map_cons, List.nodup_cons] at hnd
    have hstep := ih (if hasattr item k then setattrRow item k v else item) hnd.2
    simp only [apply_updates] at hstep ⊢
    rw [hstep]
    have hhas : hasattr (if hasattr item k then setattrRow item k v else item) col
        = hasattr item col := by
      by_cases hik : hasattr item k
      · simp [hik, hasattr_setattrRow]
      · simp [hik]
    by_cases hck : col = k
    · subst hck
      have hrest : rest.lookup col = none :=
        lookup_eq_none_of_not_mem_keys hnd.1
      have hbody : ((col, v) :: rest).lookup col = some v := by
        simp [List.lookup]
      rw [hbody, hrest, hhas]
      by_cases hic : hasattr item col
      · have hs : (item.lookup col).isSome := by
          simpa [hasattr] using hic
        obtain ⟨w, hw⟩ := Option.isSome_iff_exists.mp hs
        have hset : (setattrRow item col v).lookup col = some v := by
          rw [lookup_setattrRow, hw]
          simp
        simp [hic, hset]
      · have hnone : item.lookup col = none := by
          cases hcl : item.lookup col with
          | none => rfl
          | some w => exact absurd (by simp [hasattr, hcl]) hic
        simp [hic, hnone]
    · have hbody : ((k, v) :: rest).lookup col = rest.lookup col := by
        have hbeq : (col == k) = false := by simp [hck]
        simp [List.lookup, hbeq]
      have hitem : (if hasattr item k then setattrRow item k v else item).lookup col
          = item.lookup col := by
        by_cases hik : hasattr item k
        · simp [hik, lookup_setattrRow_ne item k col v hck]
        · simp [hik]
      rw [hbody, hhas, hitem]

/-- C6: update is partial.  When an update request reaches an existing
record, the handler stores and returns apply_updates item body, and that
record agrees with the body on exactly those columns present in the body
and existing as attributes of the record, and with the original record
everywhere else. -/
theorem C6_partial_update (st : AppState) (t : String) (rid : Value)
    (body : List (String × Value)) (td : TableData) (p0 : String)
    (rest : List String) (item : Row)
    (hnd : (body.map Prod.fst).Nodup)
    (hmem : t ∈ st.availableTables)
    (hmc : get_model_class st.db t = some td)
    (hpk : get_primary_keys st.db t = p0 :: rest)
    (hfind : td.rows.find? (fun r => r.lookup p0 == some rid) = some item) :
    update_item st t rid body none none =
      (HandlerResult.ok ⟨true, "Record updated in " ++ t,
        some (jOfRow (serialize_row (apply_updates item body)
          (get_table_columns st.db t))), none⟩,
       dbUpdateRows st.db t
         (replaceFirst (fun r => r.lookup p0 == some rid) (apply_updates item body))) ∧
    (∀ col v, hasattr item col = true → body.lookup col = some v →
      (apply_updates item body).lookup col = some v) ∧
    (∀ col, hasattr item col = false ∨ body.lookup col = none →
      (apply_updates item body).lookup col = item.lookup col) := by
  refine ⟨?_, ?_, ?_⟩
  · simp [update_item, hmem, hmc, hpk, hfind]
  · intro col v hh hb
    rw [apply_updates_lookup item body hnd col]
    simp [hh, hb]
  · intro col h
    rw [apply_updates_lookup item body hnd col]
    rcases h with h | h <;> simp [h]

theorem C6_partial_update_witness :
    (((([("price", Value.vInt 99), ("ghost", Value.vInt 5)] : List (String × Value)).map
        Prod.fst).Nodup) ∧
      "products" ∈ sampleState.availableTables ∧
      get_model_class sampleState.db "products" = some sampleTD ∧
      get_primary_keys sampleState.db "products" = "product_id" :: [] ∧
      sampleTD.rows.find?
        (fun r => r.lookup "product_id" == some (Value.vInt 2)) =
          some [("product_id", Value.vInt 2), ("product_name", Value.vStr ("Gadget")),
                ("price", Value.vInt 20)]) ∧
    (∀ col v,
      hasattr [("product_id", Value.vInt 2), ("product_name", Value.vStr ("Gadget")),
               ("price", Value.vInt 20)] col = true →
      ([("price", Value.vInt 99), ("ghost", Value.vInt 5)] : List (String × Value)).lookup
        col = some v →
      (apply_updates [("product_id", Value.vInt 2), ("product_name", Value.vStr ("Gadget")),
          ("price", Value.vInt 20)]
        [("price", Value.vInt 99), ("ghost", Value.vInt 5)]).lookup col = some v) ∧
    (∀ col,
      hasattr [("product_id", Value.vInt 2), ("product_name", Value.vStr ("Gadget")),
               ("price", Value.vInt 20)] col = false ∨
      ([("price", Value.vInt 99), ("ghost", Value.vInt 5)] : List (String × Value)).lookup
        col = none →
      (apply_updates [("product_id", Value.vInt 2), ("product_name", Value.vStr ("Gadget")),
          ("price", Value.vInt 20)]
        [("price", Value.vInt 99), ("ghost", Value.vInt 5)]).lookup col =
        [("product_id", Value.vInt 2), ("product_name", Value.vStr ("Gadget")),
         ("price", Value.vInt 20)].lookup col) :=
  ⟨⟨by decide, by decide, by decide, by decide, by decide⟩,
   (C6_partial_update sampleState "products" (Value.vInt 2)
      [("price", Value.vInt 99), ("ghost", Value.vInt 5)] sampleTD "product_id" []
      [("product_id", Value.vInt 2), ("product_name", Value.vStr ("Gadget")),
       ("price", Value.vInt 20)]
      (by decide) (by decide) (by decide) (by decide) (by decide)).2.1,
   (C6_partial_update sampleState "products" (Value.vInt 2)
      [("price", Value.vInt 99), ("ghost", Value.vInt 5)] sampleTD "product_id" []
      [("product_id", Value.vInt 2), ("product_name", Value.vStr ("Gadget")),
       ("price", Value.vInt 20)]
      (by decide) (by decide) (by decide) (by decide) (by decide)).2.2⟩

/-- C7 counterexample: a post-commit failure does change the database.
In main.py create_item, db.refresh (line 226) and get_table_columns
(line 229) run after db.commit() inside the same try, so an exception
there is caught, rolled back (a no-op after commit) and answered with
400 — while the inserted row persists: the database returned differs
from the original one. -/
theorem C7_counterexample_post_commit_persists :
    (create_item sampleState "products" [("product_name", Value.vStr ("Lamp"))]
        none (some ("boom"))).1 = HandlerResult.err 400 ("boom") ∧
    (create_item sampleState "products" [("product_name", Value.vStr ("Lamp"))]
        none (some ("boom"))).2 ≠ sampleState.db := by
  exact ⟨rfl, by decide⟩

/-- C7 (amended): write operations are transactional up to the commit
point.  An unclassified exception at or before db.commit() yields a 400
carrying the exception text and the rollback leaves the database
unchanged on every path of all three write handlers; but create and
update run refresh and column introspection after the commit inside the
same try, so an exception there also answers 400 while the committed
write persists (the returned database is the committed one); on full
success the commit is the only database change.  Delete has no fallible
step after its commit. -/
theorem C7_write_rollback_commit (st : AppState) (t : String) (rid : Value)
    (body : Row) (m : String) (pf : Option String) :
    ((create_item st t body (some m) pf).2 = st.db ∧
     (update_item st t rid body (some m) pf).2 = st.db ∧
     (delete_item st t rid (some m)).2 = st.db) ∧
    (t ∈ st.availableTables → ∀ td, get_model_class st.db t = some td →
      (create_item st t body (some m) pf).1 = HandlerResult.err 400 m ∧
      create_item st t body none (some m) =
        (HandlerResult.err 400 m,
         dbUpdateRows st.db t (fun rows => rows ++ [body])) ∧
      create_item st t body none none =
        (HandlerResult.ok ⟨true, "Record created in " ++ t,
          some (jOfRow (serialize_row body (get_table_columns st.db t))), none⟩,
         dbUpdateRows st.db t (fun rows => rows ++ [body]))) ∧
    (t ∈ st.availableTables → ∀ td, get_model_class st.db t = some td →
      ∀ p0 rest, get_primary_keys st.db t = p0 :: rest →
      ∀ item, td.rows.find? (fun r => r.lookup p0 == some rid) = some item →
      (update_item st t rid body (some m) pf).1 = HandlerResult.err 400 m ∧
      (delete_item st t rid (some m)).1 = HandlerResult.err 400 m ∧
      update_item st t rid body none (some m) =
        (HandlerResult.err 400 m,
         dbUpdateRows st.db t
           (replaceFirst (fun r => r.lookup p0 == some rid) (apply_updates item body))) ∧
      (update_item st t rid body none none).2 =
        dbUpdateRows st.db t
          (replaceFirst (fun r => r.lookup p0 == some rid) (apply_updates item body)) ∧
      (delete_item st t rid none).2 =
        dbUpdateRows st.db t (removeFirst (fun r => r.lookup p0 == some rid))) := by
  refine ⟨⟨?_, ?_, ?_⟩, ?_, ?_⟩
  · by_cases hmem : t ∈ st.availableTables
    · cases hdb : get_model_class st.db t <;> simp [create_item, hmem, hdb]
    · simp [create_item, hmem]
  · by_cases hmem : t ∈ st.availableTables
    · cases hdb : get_model_class st.db t with
      | none => simp [update_item, hmem, hdb]
      | some td =>
        cases hpk : get_primary_keys st.db t with
        | nil => simp [update_item, hmem, hdb, hpk]
        | cons p0 rest =>
          cases hf : td.rows.find? (fun r => r.lookup p0 == some rid) with
          | none => simp [update_item, hmem, hdb, hpk, hf]
          | some item => simp [update_item, hmem, hdb, hpk, hf]
    · simp [update_item, hmem]
  · by_cases hmem : t ∈ st.availableTables
    · cases hdb : get_model_class st.db t with
      | none => simp [delete_item, hmem, hdb]
      | some td =>
        cases hpk : get_primary_keys st.db t with
        | nil => simp [delete_item, hmem, hdb, hpk]
        | cons p0 rest =>
          cases hf : td.rows.find? (fun r => r.lookup p0 == some rid) with
          | none => simp [delete_item, hmem, hdb, hpk, hf]
          | some item => simp [delete_item, hmem, hdb, hpk, hf]
    · simp [delete_item, hmem]
  · intro hmem td hdb
    refine ⟨?_, ?_, ?_⟩ <;> simp [create_item, hmem, hdb]
  · intro hmem td hdb p0 rest hpk item hf
    refine ⟨?_, ?_, ?_, ?_, ?_⟩ <;>
      simp [update_item, delete_item, hmem, hdb, hpk, hf]

theorem C7_write_rollback_commit_witness :
    ((create_item sampleState "products" [("product_name", Value.vStr ("Lamp"))]
        (some ("constraint violated")) none).2 = sampleState.db) ∧
    ((create_item sampleState "products" [("product_name", Value.vStr ("Lamp"))]
        (some ("constraint violated")) none).1 =
      HandlerResult.err 400 ("constraint violated") ∧
     create_item sampleState "products" [("product_name", Value.vStr ("Lamp"))]
        none (some ("constraint violated")) =
      (HandlerResult.err 400 ("constraint violated"),
       dbUpdateRows sampleState.db "products"
         (fun rows => rows ++ [[("product_name", Value.vStr ("Lamp"))]])) ∧
     create_item sampleState "products" [("product_name", Value.vStr ("Lamp"))]
        none none =
      (HandlerResult.ok ⟨true, "Record created in " ++ "products",
        some (jOfRow (serialize_row [("product_name", Value.vStr ("Lamp"))]
          (get_table_columns sampleState.db "products"))), none⟩,
       dbUpdateRows sampleState.db "products"
         (fun rows => rows ++ [[("product_name", Value.vStr ("Lamp"))]]))) :=
  ⟨(C7_write_rollback_commit sampleState "products" (Value.vInt 1)
      [("product_name", Value.vStr ("Lamp"))] ("constraint violated") none).1.1,
   (C7_write_rollback_commit sampleState "products" (Value.vInt 1)
      [("product_name", Value.vStr ("Lamp"))] ("constraint violated") none).2.1
     (by decide) sampleTD (by decide)⟩

/-- A state holding a primary-keyed table next to a table without a
primary key: reflection lists both, automap maps only the first. -/
def mixedState : AppState :=
  AppState.mk ["logs", "products"] (DB.mk [("logs", npTD), ("products", sampleTD)])

/-- C8: an HTTPException raised mid-handler keeps its original status
code and detail on every operation handler, for every value of the
failure oracles: the mid-try could-not-load-model 404 of the five
table CRUD handlers (the only classified error read_items and
create_item can raise mid-try) and the record-not-found 404 of the
get, update and delete paths all pass through the catch-all unchanged —
never re-wrapped into a 500 or the write branches' 400 (the schema
endpoint raises no HTTPException inside its try, so nothing arises
there). -/
theorem C8_classified_errors_pass_through (st : AppState) (t : String)
    (rid : Value) (rowBody : Row) (body : List (String × Value))
    (skip limit : Int) (qf qf2 wf1 pf1 wf2 pf2 wf3 : Option String)
    (hmem : t ∈ st.availableTables) :
    (get_model_class st.db t = none →
      read_items st t skip limit qf =
        HandlerResult.err 404 ("Could not load model for table " ++ t) ∧
      read_item st t rid qf2 =
        HandlerResult.err 404 ("Could not load model for table " ++ t) ∧
      create_item st t rowBody wf1 pf1 =
        (HandlerResult.err 404 ("Could not load model for table " ++ t), st.db) ∧
      update_item st t rid body wf2 pf2 =
        (HandlerResult.err 404 ("Could not load model for table " ++ t), st.db) ∧
      delete_item st t rid wf3 =
        (HandlerResult.err 404 ("Could not load model for table " ++ t), st.db)) ∧
    (∀ td p0 rest, get_model_class st.db t = some td →
      td.schema.primary_keys = p0 :: rest →
      td.rows.find? (fun r => r.lookup p0 == some rid) = none →
      read_item st t rid none =
        HandlerResult.err 404 ("Record not found in " ++ t ++ " with " ++ p0 ++
          "=" ++ valueText rid) ∧
      update_item st t rid body wf2 pf2 =
        (HandlerResult.err 404 ("Record not found in " ++ t), st.db) ∧
      delete_item st t rid wf3 =
        (HandlerResult.err 404 ("Record not found in " ++ t), st.db)) := by
  constructor
  · intro hmc
    refine ⟨?_, ?_, ?_, ?_, ?_⟩ <;>
      simp [read_items, read_item, create_item, update_item, delete_item,
        hmem, hmc]
  · intro td p0 rest hmc hpk hf
    have hlk := (get_model_class_eq_some hmc).1
    have hpk2 : get_primary_keys st.db t = p0 :: rest := by
      unfold get_primary_keys
      rw [hlk]
      exact hpk
    refine ⟨?_, ?_, ?_⟩ <;>
      simp [read_item, update_item, delete_item, hmem, hmc, hpk2, hf]

theorem C8_classified_errors_pass_through_witness :
    ((read_items mixedState "logs" 0 10 (some ("query boom")) =
        HandlerResult.err 404 ("Could not load model for table " ++ "logs") ∧
      read_item mixedState "logs" (Value.vInt 1) (some ("query boom")) =
        HandlerResult.err 404 ("Could not load model for table " ++ "logs") ∧
      create_item mixedState "logs" [] (some ("w")) (some ("p")) =
        (HandlerResult.err 404 ("Could not load model for table " ++ "logs"),
         mixedState.db) ∧
      update_item mixedState "logs" (Value.vInt 1) [] (some ("w")) (some ("p")) =
        (HandlerResult.err 404 ("Could not load model for table " ++ "logs"),
         mixedState.db) ∧
      delete_item mixedState "logs" (Value.vInt 1) (some ("w")) =
        (HandlerResult.err 404 ("Could not load model for table " ++ "logs"),
         mixedState.db)) ∧
     (read_item mixedState "products" (Value.vInt 99) none =
        HandlerResult.err 404 ("Record not found in " ++ "products" ++ " with " ++
          "product_id" ++ "=" ++ valueText (Value.vInt 99)) ∧
      update_item mixedState "products" (Value.vInt 99) [] (some ("w")) (some ("p")) =
        (HandlerResult.err 404 ("Record not found in " ++ "products"), mixedState.db) ∧
      delete_item mixedState "products" (Value.vInt 99) (some ("w")) =
        (HandlerResult.err 404 ("Record not found in " ++ "products"), mixedState.db))) :=
  ⟨(C8_classified_errors_pass_through mixedState "logs" (Value.vInt 1) [] []
      0 10 (some ("query boom")) (some ("query boom")) (some ("w")) (some ("p"))
      (some ("w")) (some ("p")) (some ("w")) (by decide)).1 (by decide),
   (C8_classified_errors_pass_through mixedState "products" (Value.vInt 99) [] []
      0 10 none none none none (some ("w")) (some ("p")) (some ("w"))
      (by decide)).2 sampleTD "product_id" [] (by decide) (by decide) (by decide)⟩

/-! ### Response shape (C2) -/

/-- The wire shape a handler outcome actually gets: a returned
GenericResponse is rendered with the fixed Envelope keys; a raised
HTTPException is rendered by the framework default as a detail object
with the raised status code. -/
def WellShapedRes (h : HandlerResult) : Prop :=
  (∀ r, h = HandlerResult.ok r →
    isEnvelopeShape (renderResult h).2 = true ∧ (renderResult h).1 = 200) ∧
  (∀ s d, h = HandlerResult.err s d →
    (renderResult h).2 = Jval.jObj [("detail", Jval.jStr d)] ∧ (renderResult h).1 = s)

theorem wellShapedRes_all (h : HandlerResult) : WellShapedRes h := by
  cases h with
  | ok r =>
    constructor
    · intro r2 hr2
      exact ⟨by simp [renderResult, isEnvelopeShape], rfl⟩
    · intro s d hsd
      exact absurd hsd (by simp)
  | err s d =>
    constructor
    · intro r2 hr2
      exact absurd hr2 (by simp)
    · intro s2 d2 hsd
      cases hsd
      exact ⟨rfl, rfl⟩

/-- C2 counterexample: an error response is not enveloped.  With an
empty startup table list, the schema endpoint on any name raises a 404
whose rendered body is the framework default detail object, which does
not have the Envelope shape. -/
theorem C2_counterexample_error_not_enveloped :
    (renderResult (get_table_schema (AppState.mk [] (DB.mk [])) "products" none)).1 =
      404 ∧
    isEnvelopeShape
      (renderResult (get_table_schema (AppState.mk [] (DB.mk [])) "products" none)).2 =
      false := by
  constructor
  · rfl
  · rfl

/-- C2 (amended): every response a handler returns normally (the
success path) is rendered with the fixed Envelope shape
success/message/data/error; a response produced by a raised
HTTPException is rendered with the framework default detail shape and
the raised status code, not the Envelope. -/
theorem C2_envelope_shape (st : AppState) (t : String) (rid : Value)
    (body : Row) (body2 : List (String × Value)) (sp lp : Option Int)
    (o1 o2 o3 o4 o5 o6 o7 o8 : Option String) :
    WellShapedRes (root st) ∧
    WellShapedRes (list_tables st) ∧
    WellShapedRes (get_table_schema st t o1) ∧
    WellShapedRes (read_items_endpoint st t sp lp o2) ∧
    WellShapedRes (read_item st t rid o3) ∧
    WellShapedRes ((create_item st t body o4 o7).1) ∧
    WellShapedRes ((update_item st t rid body2 o5 o8).1) ∧
    WellShapedRes ((delete_item st t rid o6).1) :=
  ⟨wellShapedRes_all _, wellShapedRes_all _, wellShapedRes_all _,
   wellShapedRes_all _, wellShapedRes_all _, wellShapedRes_all _,
   wellShapedRes_all _, wellShapedRes_all _⟩

theorem C2_envelope_shape_witness :
    isEnvelopeShape (renderResult (root sampleState)).2 = true ∧
    (renderResult (root sampleState)).1 = 200 :=
  (C2_envelope_shape sampleState "products" (Value.vInt 1) [] [] none none
      none none none none none none none none).1.1
    ⟨true, "Northwind Microserver API is running",
      some (Jval.jObj [("version", Jval.jStr API_VERSION),
        ("tables", Jval.jArr [Jval.jStr ("products")])]), none⟩ rfl

/-! ### Startup failure (C9) -/

/-- C9 counterexample: after a startup connection failure the table
list is empty, yet the health endpoint GET / answers 200 with a success
envelope rather than reporting "table not found" — so not every
subsequent request reports table not found. -/
theorem C9_counterexample_root_succeeds :
    startup_event (Except.error ("connection refused")) = [] ∧
    root (AppState.mk (startup_event (Except.error ("connection refused"))) sampleDB) =
      HandlerResult.ok ⟨true, "Northwind Microserver API is running",
        some (Jval.jObj [("version", Jval.jStr API_VERSION),
          ("tables", Jval.jArr [])]), none⟩ ∧
    (renderResult (root
      (AppState.mk (startup_event (Except.error ("connection refused"))) sampleDB))).1 =
      200 := by
  exact ⟨rfl, rfl, rfl⟩

/-- C9 (amended): a startup connection failure is swallowed (the
startup hook still returns, leaving the table list empty, so the
process does not abort), and in the resulting state every
table-referencing request reports the table-not-found 404, while the
health and table-list endpoints still answer with a success envelope
listing no tables. -/
theorem C9_startup_failure_degrades (m : String) (db : DB) (t : String)
    (rid : Value) (body : Row) (skip limit : Int)
    (o1 o2 o3 o4 o5 o6 o7 o8 : Option String) :
    startup_event (Except.error m) = [] ∧
    (get_table_schema (AppState.mk [] db) t o1 =
        HandlerResult.err 404 ("Table " ++ t ++ " not found") ∧
      read_items (AppState.mk [] db) t skip limit o2 =
        HandlerResult.err 404 ("Table " ++ t ++ " not found") ∧
      read_item (AppState.mk [] db) t rid o3 =
        HandlerResult.err 404 ("Table " ++ t ++ " not found") ∧
      create_item (AppState.mk [] db) t body o4 o7 =
        (HandlerResult.err 404 ("Table " ++ t ++ " not found"), db) ∧
      update_item (AppState.mk [] db) t rid body o5 o8 =
        (HandlerResult.err 404 ("Table " ++ t ++ " not found"), db) ∧
      delete_item (AppState.mk [] db) t rid o6 =
        (HandlerResult.err 404 ("Table " ++ t ++ " not found"), db)) ∧
    root (AppState.mk [] db) =
      HandlerResult.ok ⟨true, "Northwind Microserver API is running",
        some (Jval.jObj [("version", Jval.jStr API_VERSION),
          ("tables", Jval.jArr [])]), none⟩ ∧
    list_tables (AppState.mk [] db) =
      HandlerResult.ok ⟨true, "Found " ++ toString (0 : Nat) ++ " tables",
        some (Jval.jObj [("tables", Jval.jArr [])]), none⟩ :=
  ⟨rfl,
   handlers_404_of_unknown_table (AppState.mk [] db) t rid body skip limit
     o1 o2 o3 o4 o5 o6 o7 o8 (List.not_mem_nil t),
   rfl, rfl⟩

/-! ### Empty update body (C10) -/

theorem replaceFirst_of_find?_eq (p : Row → Bool) (l : List Row) (a : Row)
    (h : l.find? p = some a) : replaceFirst p a l = l := by
  induction l with
  | nil => simp at h
  | cons r rs ih =>
    by_cases hp : p r
    · rw [List.find?_cons_of_pos rs hp] at h
      have ha : a = r := by
        cases h
        rfl
      simp [replaceFirst, hp, ha]
    · rw [List.find?_cons_of_neg rs (by simp [hp])] at h
      simp [replaceFirst, hp, ih h]

theorem map_entry_id_of_not_mem (g : TableData → TableData)
    (l : List (String × TableData)) (t : String) (h : t ∉ l.map Prod.fst) :
    l.map (fun kv => (kv.1, if kv.1 = t then g kv.2 else kv.2)) = l := by
  induction l with
  | nil => rfl
  | cons kv rest ih =>
    simp only [List.map_cons, List.mem_cons, not_or] at h
    have hne : kv.1 ≠ t := fun he => h.1 he.symm
    simp [hne, ih h.2]

theorem dbUpdateRows_eq_self (db : DB) (t : String) (f : List Row → List Row)
    (td : TableData) (hnd : (db.tables.map Prod.fst).Nodup)
    (hlk : db.tables.lookup t = some td) (hf : f td.rows = td.rows) :
    dbUpdateRows db t f = db := by
  cases db with
  | mk l =>
    simp only [dbUpdateRows, DB.mk.injEq]
    simp only at hlk hnd
    induction l with
    | nil => rfl
    | cons kv rest ih =>
      simp only [List.map_cons, List.nodup_cons] at hnd
      by_cases hk : kv.1 = t
      · have hbeq : (t == kv.1) = true := by simp [hk]
        rw [List.lookup] at hlk
        rw [hbeq] at hlk
        have htd : td = kv.2 := by
          cases hlk
          rfl
        have hrows : f kv.2.rows = kv.2.rows := by
          rw [← htd, hf]
        have hrest : t ∉ rest.map Prod.fst := hk ▸ hnd.1
        simp only [List.map_cons, if_pos hk, hrows]
        rw [map_entry_id_of_not_mem (fun td0 => TableData.mk td0.schema (f td0.rows))
          rest t hrest]
      · have hbeq : (t == kv.1) = false := by
          simp
          exact fun he => hk he.symm
        rw [List.lookup] at hlk
        rw [hbeq] at hlk
        simp only [List.map_cons, if_neg hk]
        rw [ih hnd.2 hlk]

/-- C10: an update whose body is the empty mapping is accepted: on a
known table with a primary key and a matching record, the handler
answers HTTP 200 with success=true and the record serialized with every
field unchanged, and the database is left exactly as it was. -/
theorem C10_empty_update_body (st : AppState) (t : String) (rid : Value)
    (td : TableData) (p0 : String) (rest : List String) (item : Row)
    (hnd : (st.db.tables.map Prod.fst).Nodup)
    (hmem : t ∈ st.availableTables)
    (hmc : get_model_class st.db t = some td)
    (hpk : get_primary_keys st.db t = p0 :: rest)
    (hfind : td.rows.find? (fun r => r.lookup p0 == some rid) = some item) :
    update_item st t rid [] none none =
      (HandlerResult.ok ⟨true, "Record updated in " ++ t,
        some (jOfRow (serialize_row item (get_table_columns st.db t))), none⟩,
       st.db) ∧
    (renderResult (update_item st t rid [] none none).1).1 = 200 := by
  have hlk : st.db.tables.lookup t = some td := (get_model_class_eq_some hmc).1
  have hrep : replaceFirst (fun r => r.lookup p0 == some rid) item td.rows = td.rows :=
    replaceFirst_of_find?_eq _ _ _ hfind
  have hdbeq : dbUpdateRows st.db t
      (replaceFirst (fun r => r.lookup p0 == some rid) item) = st.db :=
    dbUpdateRows_eq_self st.db t _ td hnd hlk hrep
  have heq : update_item st t rid [] none none =
      (HandlerResult.ok ⟨true, "Record updated in " ++ t,
        some (jOfRow (serialize_row item (get_table_columns st.db t))), none⟩,
       st.db) := by
    simp [update_item, hmem, hmc, hpk, hfind, apply_updates, hdbeq]
  exact ⟨heq, by rw [heq]; rfl⟩

theorem C10_empty_update_body_witness :
    ((sampleState.db.tables.map Prod.fst).Nodup ∧
      "products" ∈ sampleState.availableTables ∧
      get_model_class sampleState.db "products" = some sampleTD ∧
      get_primary_keys sampleState.db "products" = "product_id" :: [] ∧
      sampleTD.rows.find?
        (fun r => r.lookup "product_id" == some (Value.vInt 2)) =
        some [("product_id", Value.vInt 2), ("product_name", Value.vStr ("Gadget")),
              ("price", Value.vInt 20)]) ∧
    (update_item sampleState "products" (Value.vInt 2) [] none none =
      (HandlerResult.ok ⟨true, "Record updated in " ++ "products",
        some (jOfRow (serialize_row
          [("product_id", Value.vInt 2), ("product_name", Value.vStr ("Gadget")),
           ("price", Value.vInt 20)]
          (get_table_columns sampleState.db "products"))), none⟩,
       sampleState.db) ∧
     (renderResult (update_item sampleState "products" (Value.vInt 2) [] none none).1).1 =
       200) :=
  ⟨⟨by decide, by decide, by decide, by decide, by decide⟩,
   C10_empty_update_body sampleState "products" (Value.vInt 2) sampleTD
     "product_id" []
     [("product_id", Value.vInt 2), ("product_name", Value.vStr ("Gadget")),
      ("price", Value.vInt 20)]
     (by decide) (by decide) (by decide) (by decide) (by decide)⟩

end Microserver
